import Mathlib

/-!
Verification of the OAuth token-issuing cloud function in
`src/api/oauthfunction/__init__.py` (repository `osdatahub-oauth-blogpost`).

The function body is a linear sequence of calls to external services:
authenticate to an Azure Key Vault secret store, fetch two named secrets,
and perform an OAuth2 client-credentials token exchange. We embed it as a
function of a `World` describing the behaviour of those external services,
and additionally record the trace of external calls the invocation makes.

Python exceptions are modelled with `Except`; `environ.get` returning a
possibly-absent value is modelled with `Option`. The trailing
`except Exception as e: return func.HttpResponse(str(e), status_code=500)`
in the source is not attached to any try statement (the sole try/except
ends at the credential-fallback block), so it is unreachable; accordingly
the embedding of `main` has no path producing an HTTP response value, and
an error raised by the token exchange propagates out of `main` uncaught
(`MainResult.raised`).
-/

namespace OSOAuth

/-- The hardcoded token endpoint URL, `token_url` in the source. -/
def token_url : String := "https://api.os.uk/oauth2/token/v1"

/-- A flat JSON value, enough for the token payloads handled here. -/
inductive JVal where
  | str : String → JVal
  | num : Int → JVal
deriving DecidableEq, Repr

/-- A token payload: a JSON object, i.e. an ordered list of fields
(Python dicts preserve insertion order). -/
def Token : Type := List (String × JVal)

instance : DecidableEq Token := by
  unfold Token
  infer_instance

/-- Serialization of one JSON value, as Python json.dumps renders it. -/
def JVal.dumps : JVal → String
  | JVal.str s => "\"" ++ s ++ "\""
  | JVal.num n => toString n

/-- Serialization of a token payload, following Python json.dumps with its
default separators. -/
def dumps (t : Token) : String :=
  "\x7b" ++ String.intercalate ", " (t.map (fun p => "\"" ++ p.1 ++ "\": " ++ p.2.dumps)) ++ "\x7d"

/-- The request the token exchange sends: `oauth.fetch_token(token_url=...,
client_id=..., client_secret=...)` with a `BackendApplicationClient`, i.e. a
client-credentials grant. The credentials are `Option String` because the
environment fallback can supply `None`. -/
structure TokenRequest where
  url : String
  grant_type : String
  client_id : Option String
  client_secret : Option String
deriving DecidableEq, Repr

/-- Behaviour of the external services during one invocation:
whether authenticating to the secret store succeeds, the value (or error)
each named secret fetch yields, what `environ.get` returns for each name,
and the HTTP status and JSON body the token endpoint answers a request with. -/
structure World where
  storeAuth : Except String Unit
  getSecret : String → Except String String
  environGet : String → Option String
  endpoint : TokenRequest → Nat × Token

/-- One external call made by an invocation, recorded in the trace. -/
inductive Call where
  | storeAuth
  | getSecret (name : String)
  | envGet (name : String)
  | fetchToken (req : TokenRequest)
deriving DecidableEq, Repr

/-- Whether a call is the token exchange. -/
def Call.isFetch : Call → Bool
  | Call.fetchToken _ => true
  | _ => false

/-- Whether a call reads an environment variable. -/
def Call.isEnvGet : Call → Bool
  | Call.envGet _ => true
  | _ => false

/-- Modelled from the spec: the handling of the token endpoint's HTTP
response is implemented inside the third-party oauthlib / requests-oauthlib
libraries, whose code is not under `src/`; the source only calls
`oauth.fetch_token`. The spec says the exchanger must surface a typed
authorization error on HTTP 401, distinguishable from a generic error. -/
inductive ExchangeError where
  | authorizationError (msg : String)
  | genericError (msg : String)
deriving DecidableEq, Repr

/-- Whether an exchange error is the typed authorization error. -/
def ExchangeError.isAuthorization : ExchangeError → Bool
  | ExchangeError.authorizationError _ => true
  | ExchangeError.genericError _ => false

/-- The message of the typed authorization error raised on HTTP 401. -/
def authMsg : String := "token endpoint returned HTTP 401: authorization failed"

/-- Modelled from the spec: classify the token endpoint's HTTP response —
a 2xx response yields the decoded payload unmodified, a 401 raises the
typed authorization error, any other status raises a generic error. -/
def classifyTokenResponse (status : Nat) (body : Token) : Except ExchangeError Token :=
  if 200 ≤ status ∧ status < 300 then Except.ok body
  else if status = 401 then Except.error (ExchangeError.authorizationError authMsg)
  else Except.error (ExchangeError.genericError ("token endpoint returned HTTP " ++ toString status))

/-- The token exchange as the source performs it: send the request, let the
library classify the response; any resulting error is raised to the caller
(the source wraps no try around `oauth.fetch_token`). -/
def fetch_token (w : World) (req : TokenRequest) : Except ExchangeError Token :=
  classifyTokenResponse (w.endpoint req).1 (w.endpoint req).2

/-- The value an invocation of `main` ends with: `str` is Python
`return json.dumps(token)` (a raw string, not an HTTP response object);
`httpResponse` is `return func.HttpResponse(body, status_code=status)`;
`raised` is an exception propagating out of `main` uncaught. -/
inductive MainResult where
  | str (body : String)
  | httpResponse (status : Nat) (body : String)
  | raised (e : ExchangeError)
deriving DecidableEq, Repr

/-- Whether a result is an HTTP response object. -/
def MainResult.isHttp : MainResult → Bool
  | MainResult.httpResponse _ _ => true
  | _ => false

/-- The credentials the except-branch falls back to:
`project_api_key = environ.get("project_api_key")`;
`client_secret = environ.get("client_secret")`. -/
def fallbackEnv (w : World) : Option String × Option String :=
  (w.environGet "project_api_key", w.environGet "client_secret")

/-- The try/except block of `main`: authenticate to the secret store and
fetch the secrets `project-api-key` and `client-secret`; if any step raises
any error, fall back to the two environment variables. Returns the resolved
(api key, client secret) pair and the calls made. -/
def resolveCredentials (w : World) : (Option String × Option String) × List Call :=
  match w.storeAuth with
  | Except.error _ =>
      (fallbackEnv w,
       [Call.storeAuth, Call.envGet "project_api_key", Call.envGet "client_secret"])
  | Except.ok _ =>
      match w.getSecret "project-api-key" with
      | Except.error _ =>
          (fallbackEnv w,
           [Call.storeAuth, Call.getSecret "project-api-key",
            Call.envGet "project_api_key", Call.envGet "client_secret"])
      | Except.ok k =>
          match w.getSecret "client-secret" with
          | Except.error _ =>
              (fallbackEnv w,
               [Call.storeAuth, Call.getSecret "project-api-key",
                Call.getSecret "client-secret",
                Call.envGet "project_api_key", Call.envGet "client_secret"])
          | Except.ok s =>
              ((some k, some s),
               [Call.storeAuth, Call.getSecret "project-api-key",
                Call.getSecret "client-secret"])

/-- The request `main` builds for the exchange: hardcoded `token_url`,
client-credentials grant (`BackendApplicationClient`), the resolved api key
as client id and the resolved secret as client secret. -/
def mkTokenRequest (api_key client_secret : Option String) : TokenRequest :=
  { url := token_url, grant_type := "client_credentials",
    client_id := api_key, client_secret := client_secret }

/-- The embedding of `main`: resolve credentials (with fallback), perform
the token exchange unconditionally, and on success return the serialized
token as a raw string. An exchange error propagates uncaught: the trailing
500-handler in the source is attached to no try statement. -/
def main (w : World) : MainResult × List Call :=
  match fetch_token w (mkTokenRequest (resolveCredentials w).1.1 (resolveCredentials w).1.2) with
  | Except.ok tok =>
      (MainResult.str (dumps tok),
       (resolveCredentials w).2
         ++ [Call.fetchToken (mkTokenRequest (resolveCredentials w).1.1 (resolveCredentials w).1.2)])
  | Except.error e =>
      (MainResult.raised e,
       (resolveCredentials w).2
         ++ [Call.fetchToken (mkTokenRequest (resolveCredentials w).1.1 (resolveCredentials w).1.2)])

/-- The outcome of an invocation as a function of the endpoint's response
alone (used to state that missing credentials are never detected). -/
def outcomeOfResponse (resp : Nat × Token) : MainResult :=
  match classifyTokenResponse resp.1 resp.2 with
  | Except.ok tok => MainResult.str (dumps tok)
  | Except.error e => MainResult.raised e

/-- The secret-store path fails: authentication or one of the two secret
fetches raises some error. -/
def storePathFails (w : World) : Prop :=
  (∃ e, w.storeAuth = Except.error e) ∨
    (∃ e, w.getSecret "project-api-key" = Except.error e) ∨
    (∃ e, w.getSecret "client-secret" = Except.error e)

/-- The spec's stub token payload. -/
def stubToken : Token :=
  [("access_token", JVal.str "tok123"), ("token_type", JVal.str "bearer"),
   ("expires_in", JVal.num 3600)]

/-- A world matching the spec's end-to-end success scenario: the secret
store yields api key "k" and secret "s", and the token endpoint answers
every request with 200 and the stub token. -/
def wStub : World where
  storeAuth := Except.ok ()
  getSecret := fun n =>
    if n = "project-api-key" then Except.ok "k"
    else if n = "client-secret" then Except.ok "s"
    else Except.error "secret not found"
  environGet := fun _ => none
  endpoint := fun _ => (200, stubToken)

/-- A world in which the secret store and the environment both fail to
provide credentials, and the token endpoint rejects the request with 400. -/
def wAllFail : World where
  storeAuth := Except.error "ManagedIdentityCredential authentication unavailable"
  getSecret := fun _ => Except.error "store unreachable"
  environGet := fun _ => none
  endpoint := fun _ => (400, [])

/-- A world in which the secret store fails and the environment variables
are set. -/
def wEnvFall : World where
  storeAuth := Except.error "no managed identity"
  getSecret := fun _ => Except.error "store unreachable"
  environGet := fun n =>
    if n = "project_api_key" then some "ek"
    else if n = "client_secret" then some "es"
    else none
  endpoint := fun _ => (200, stubToken)

/-- A world in which credentials resolve from the store and the token
endpoint answers every request with HTTP 401. -/
def w401 : World where
  storeAuth := Except.ok ()
  getSecret := fun n =>
    if n = "project-api-key" then Except.ok "k" else Except.ok "s"
  environGet := fun _ => none
  endpoint := fun _ => (401, [])

/-- Helper: the trace of an invocation is the resolver's trace followed by
exactly one token-exchange call, built from the resolved credentials. -/
theorem main_trace_eq (w : World) :
    (main w).2 = (resolveCredentials w).2
      ++ [Call.fetchToken (mkTokenRequest (resolveCredentials w).1.1 (resolveCredentials w).1.2)] := by
  unfold main
  split <;> rfl

/-- Helper: the token-exchange call built from the resolved credentials is
in the trace of every invocation. -/
theorem exchange_in_trace (w : World) :
    Call.fetchToken (mkTokenRequest (resolveCredentials w).1.1 (resolveCredentials w).1.2)
      ∈ (main w).2 := by
  rw [main_trace_eq]
  simp

/-- Helper: the resolver's trace is duplicate-free and contains no
token-exchange call. -/
theorem resolve_trace_no_fetch (w : World) :
    (resolveCredentials w).2.Nodup ∧
    (resolveCredentials w).2.countP (fun c => c.isFetch) = 0 ∧
    ∀ req, Call.fetchToken req ∉ (resolveCredentials w).2 := by
  unfold resolveCredentials
  split
  · exact ⟨by dsimp only; decide, by dsimp only; decide, fun req => by simp⟩
  · split
    · exact ⟨by dsimp only; decide, by dsimp only; decide, fun req => by simp⟩
    · split
      · exact ⟨by dsimp only; decide, by dsimp only; decide, fun req => by simp⟩
      · exact ⟨by dsimp only; decide, by dsimp only; decide, fun req => by simp⟩

/-- Helper: any failure on the secret-store path makes the resolver return
the two `environ.get` values unchanged. -/
theorem resolve_env_of_storeFail (w : World) (h : storePathFails w) :
    (resolveCredentials w).1
      = (w.environGet "project_api_key", w.environGet "client_secret") := by
  unfold resolveCredentials
  rcases hA : w.storeAuth with eA | u
  · rfl
  · rcases h1 : w.getSecret "project-api-key" with e1 | k
    · rfl
    · rcases h2 : w.getSecret "client-secret" with e2 | s
      · rfl
      · exfalso
        rcases h with ⟨e, he⟩ | ⟨e, he⟩ | ⟨e, he⟩ <;>
          simp [hA, h1, h2] at he

/-- C3: whenever any step of the secret-store path raises any error, the
resolver falls back to `environ.get` on `project_api_key` and
`client_secret` and returns those values unchanged, with no validation of
their presence (they may be `none`). -/
theorem resolver_fallback (w : World) (h : storePathFails w) :
    (resolveCredentials w).1
      = (w.environGet "project_api_key", w.environGet "client_secret") :=
  resolve_env_of_storeFail w h

/-- Witness for C3 at a concrete world: the store fails, the environment
holds "ek"/"es", and the resolver returns exactly those values. -/
theorem resolver_fallback_witness :
    (resolveCredentials wEnvFall).1
        = (wEnvFall.environGet "project_api_key", wEnvFall.environGet "client_secret") ∧
    (resolveCredentials wEnvFall).1 = (some "ek", some "es") :=
  ⟨resolver_fallback wEnvFall (Or.inl ⟨"no managed identity", rfl⟩), by decide⟩

/-- C5: when secret-store authentication succeeds and both named secrets
are returned, the resolver yields exactly that pair and consults no
environment variable. -/
theorem resolver_store_path (w : World) (k s : String)
    (h1 : w.storeAuth = Except.ok ())
    (h2 : w.getSecret "project-api-key" = Except.ok k)
    (h3 : w.getSecret "client-secret" = Except.ok s) :
    (resolveCredentials w).1 = (some k, some s) ∧
    (resolveCredentials w).2.countP (fun c => c.isEnvGet) = 0 := by
  unfold resolveCredentials
  simp only [h1, h2, h3]
  exact ⟨trivial, by decide⟩

/-- Witness for C5 at the stub world: secret store yields "k"/"s". -/
theorem resolver_store_path_witness :
    (resolveCredentials wStub).1 = (some "k", some "s") ∧
    (resolveCredentials wStub).2.countP (fun c => c.isEnvGet) = 0 :=
  resolver_store_path wStub "k" "s" rfl rfl rfl

/-- C9: the trailing 500-handler of the source follows an unconditional
return and is attached to no try statement, so no behaviour of the
external services makes `main` return an HTTP response value (in
particular, never a 500). -/
theorem main_never_http (w : World) : ((main w).1).isHttp = false := by
  unfold main
  split <;> rfl

/-- C6 (amended): the token exchange is attempted in every invocation with
exactly the resolved credentials, with no check that they are present or
non-empty. -/
theorem exchange_always_attempted (w : World) :
    Call.fetchToken (mkTokenRequest (resolveCredentials w).1.1 (resolveCredentials w).1.2)
      ∈ (main w).2 :=
  exchange_in_trace w

/-- Counterexample for C6: in the world where the store fails and the
environment is empty, the token exchange is attempted with
client_id = none and client_secret = none, which are not non-empty
strings. -/
theorem exchange_attempted_with_missing_creds :
    Call.fetchToken (mkTokenRequest none none) ∈ (main wAllFail).2 ∧
    (mkTokenRequest none none).client_id = none ∧
    (mkTokenRequest none none).client_secret = none :=
  ⟨by decide, rfl, rfl⟩

/-- C2: at the concrete invocation where both the secret store and the
environment fail to provide credentials and the token endpoint rejects the
request, `main` does not return a 500 HTTP response: the exchange error
propagates out of `main` as an uncaught exception. -/
theorem main_failure_raises_uncaught :
    (main wAllFail).1
        = MainResult.raised (ExchangeError.genericError "token endpoint returned HTTP 400") ∧
    ((main wAllFail).1).isHttp = false :=
  ⟨by decide, by decide⟩

/-- Counterexample for C1: in the spec's end-to-end success scenario (store
yields "k"/"s", endpoint answers 200 with the stub token), `main` returns
the serialized token as a raw string value — not an HTTP response object
with status 200 — and that string is exactly the stub payload's JSON. -/
theorem main_success_not_http200 :
    (main wStub).1 = MainResult.str (dumps stubToken) ∧
    ((main wStub).1).isHttp = false ∧
    dumps stubToken
      = "\x7b\"access_token\": \"tok123\", \"token_type\": \"bearer\", \"expires_in\": 3600\x7d" :=
  ⟨by decide, by decide, by decide⟩

/-- C1 (amended): whenever the token endpoint answers the built request
with 200 and a token payload, `main` returns that payload serialized as
JSON — as a raw string return value, with no HTTP response wrapper or
explicit status code. -/
theorem main_success_returns_json_string (w : World) (tok : Token)
    (h : w.endpoint (mkTokenRequest (resolveCredentials w).1.1 (resolveCredentials w).1.2)
          = (200, tok)) :
    (main w).1 = MainResult.str (dumps tok) := by
  unfold main fetch_token
  rw [h]
  rfl

/-- Witness for C1 (amended) at the spec's end-to-end stub world. -/
theorem main_success_returns_json_string_witness :
    (main wStub).1 = MainResult.str (dumps stubToken) :=
  main_success_returns_json_string wStub stubToken rfl

/-- C4: the token exchange request is built against exactly the hardcoded
endpoint with a client_credentials grant, the resolved api key as client id
and the resolved secret as client secret; with a stub endpoint answering
200 and a fixed token, the exchanger returns that token unmodified, and the
exchange is performed by the invocation. -/
theorem exchanger_contract (w : World) (tok : Token)
    (h : w.endpoint (mkTokenRequest (resolveCredentials w).1.1 (resolveCredentials w).1.2)
          = (200, tok)) :
    (mkTokenRequest (resolveCredentials w).1.1 (resolveCredentials w).1.2).url
        = "https://api.os.uk/oauth2/token/v1" ∧
    (mkTokenRequest (resolveCredentials w).1.1 (resolveCredentials w).1.2).grant_type
        = "client_credentials" ∧
    (mkTokenRequest (resolveCredentials w).1.1 (resolveCredentials w).1.2).client_id
        = (resolveCredentials w).1.1 ∧
    (mkTokenRequest (resolveCredentials w).1.1 (resolveCredentials w).1.2).client_secret
        = (resolveCredentials w).1.2 ∧
    fetch_token w (mkTokenRequest (resolveCredentials w).1.1 (resolveCredentials w).1.2)
        = Except.ok tok ∧
    Call.fetchToken (mkTokenRequest (resolveCredentials w).1.1 (resolveCredentials w).1.2)
        ∈ (main w).2 := by
  refine ⟨rfl, rfl, rfl, rfl, ?_, exchange_in_trace w⟩
  unfold fetch_token
  rw [h]
  rfl

/-- Witness for C4 at the stub world: the exchanger yields the stub token
unmodified. -/
theorem exchanger_contract_witness :
    fetch_token wStub (mkTokenRequest (resolveCredentials wStub).1.1 (resolveCredentials wStub).1.2)
      = Except.ok stubToken :=
  (exchanger_contract wStub stubToken rfl).2.2.2.2.1

/-- C7: when the token endpoint answers the built request with HTTP 401,
the exchange raises the typed authorization error — distinguishable from
the generic error — and it propagates to the caller of `main`. -/
theorem exchanger_401_typed (w : World) (body : Token)
    (h : w.endpoint (mkTokenRequest (resolveCredentials w).1.1 (resolveCredentials w).1.2)
          = (401, body)) :
    fetch_token w (mkTokenRequest (resolveCredentials w).1.1 (resolveCredentials w).1.2)
        = Except.error (ExchangeError.authorizationError authMsg) ∧
    (main w).1 = MainResult.raised (ExchangeError.authorizationError authMsg) ∧
    (ExchangeError.authorizationError authMsg).isAuthorization = true ∧
    ∀ msg, (ExchangeError.genericError msg).isAuthorization = false := by
  have hf : fetch_token w (mkTokenRequest (resolveCredentials w).1.1 (resolveCredentials w).1.2)
      = Except.error (ExchangeError.authorizationError authMsg) := by
    unfold fetch_token
    rw [h]
    rfl
  refine ⟨hf, ?_, rfl, fun msg => rfl⟩
  unfold main
  rw [hf]

/-- Witness for C7 at a concrete 401 world. -/
theorem exchanger_401_typed_witness :
    (main w401).1 = MainResult.raised (ExchangeError.authorizationError authMsg) :=
  (exchanger_401_typed w401 [] rfl).2.1

/-- C8: every invocation ends in exactly one of the terminal states —
success (the serialized token) or an exchange failure raised out of `main`
(a credential failure never terminates the invocation: it falls back) —
the call trace is duplicate-free (so no external call is retried), and the
token exchange is performed exactly once. -/
theorem main_terminal_and_no_retries (w : World) :
    ((∃ b, (main w).1 = MainResult.str b) ∨ (∃ e, (main w).1 = MainResult.raised e)) ∧
    (main w).2.Nodup ∧
    (main w).2.countP (fun c => c.isFetch) = 1 := by
  obtain ⟨hnd, hcp, hnf⟩ := resolve_trace_no_fetch w
  refine ⟨?_, ?_, ?_⟩
  · unfold main
    split
    · exact Or.inl ⟨_, rfl⟩
    · exact Or.inr ⟨_, rfl⟩
  · rw [main_trace_eq]
    refine List.Nodup.append hnd (by simp) ?_
    intro a ha hb
    simp at hb
    subst hb
    exact hnf _ ha
  · rw [main_trace_eq, List.countP_append, hcp]
    rfl

/-- C10: when any step of the secret-store path fails (authentication or
either secret fetch) and both fallback environment variables are unset,
the resolver yields (none, none), the token exchange is nevertheless
attempted with client_id = none and client_secret = none, and the
invocation's outcome is entirely determined by the endpoint's response —
the missing credentials are never detected or reported. -/
theorem missing_creds_exchange_with_none (w : World)
    (h1 : storePathFails w)
    (h2 : w.environGet "project_api_key" = none)
    (h3 : w.environGet "client_secret" = none) :
    (resolveCredentials w).1 = (none, none) ∧
    Call.fetchToken (mkTokenRequest none none) ∈ (main w).2 ∧
    (main w).1 = outcomeOfResponse (w.endpoint (mkTokenRequest none none)) := by
  have hres : (resolveCredentials w).1 = (none, none) := by
    rw [resolve_env_of_storeFail w h1, h2, h3]
  refine ⟨hres, ?_, ?_⟩
  · have hm := exchange_in_trace w
    rw [hres] at hm
    exact hm
  · unfold main fetch_token outcomeOfResponse
    rw [hres]
    rcases hX : classifyTokenResponse ((w.endpoint (mkTokenRequest none none)).1)
        ((w.endpoint (mkTokenRequest none none)).2) with err | t <;> simp [hX]

/-- Witness for C10 at the all-failing world. -/
theorem missing_creds_exchange_with_none_witness :
    (resolveCredentials wAllFail).1 = (none, none) ∧
    Call.fetchToken (mkTokenRequest none none) ∈ (main wAllFail).2 ∧
    (main wAllFail).1 = outcomeOfResponse (wAllFail.endpoint (mkTokenRequest none none)) :=
  missing_creds_exchange_with_none wAllFail
    (Or.inl ⟨"ManagedIdentityCredential authentication unavailable", rfl⟩) rfl rfl

end OSOAuth
